import Mathlib

/-!
Verification development for the sequential-thinking MCP server
(`mcp_sequential_thinking`): a shallow embedding of `server.py` and
`critical_thinker.py`, together with models of the Thought Record,
History Store and Analyzer components (whose modules `models.py`,
`storage.py` and `analysis.py` are referenced by `server.py` but whose
sources are not in the repository snapshot: those parts are modelled
from the specification, as marked in the individual doc comments).

Conventions of the embedding:
* Python dicts crossing the tool boundary are modelled by the JSON-like
  value type `JVal`.
* Python exceptions are modelled by `Except String`; a `try/except`
  block is the combinator `exceptTryCatch`.
* The external OpenAI chat-completion call is modelled by an oracle
  value of type `ExtOutcome`: the call either returns a payload (whose
  `content` may be null) or raises.
* Timestamps are natural numbers (seconds).
-/

namespace SeqThink

/-- JSON-like values, modelling the Python dicts/lists/strings that cross
the tool boundary and the persisted session file format. -/
inductive JVal where
  | str (s : String)
  | int (i : Int)
  | bool (b : Bool)
  | arr (xs : List JVal)
  | obj (fields : List (String × JVal))
deriving Repr

/-- Python truthiness of an optional string (`if not self.api_key`):
`None` and the empty string are falsy. -/
def pyTruthy : Option String → Bool
  | none => false
  | some s => !(s == "")

/-- ASCII lower-casing of one character (`str.lower` on the alphabet the
stage labels use). -/
def lowerChar (c : Char) : Char :=
  if 65 ≤ c.toNat ∧ c.toNat ≤ 90 then Char.ofNat (c.toNat + 32) else c

/-- Python's `str.lower`, character by character. -/
def pyLower (s : String) : String := String.mk (s.data.map lowerChar)

/-- Python's `str.strip()`: drop leading and trailing whitespace. -/
def pyStrip (s : String) : String :=
  String.mk (((s.data.dropWhile Char.isWhitespace).reverse.dropWhile
    Char.isWhitespace).reverse)

/-- A `try/except Exception` block: run the body; on an exception run the
handler. -/
def exceptTryCatch {α : Type} (body : Except String α)
    (handler : String → Except String α) : Except String α :=
  match body with
  | .ok a => .ok a
  | .error e => handler e

/-- The five thinking stages (`ThoughtStage` in `models.py`).
Modelled from the spec: an enumerated value from the ordered set
ProblemDefinition, Research, Analysis, Synthesis, Conclusion. -/
inductive ThoughtStage where
  | problemDefinition
  | research
  | analysis
  | synthesis
  | conclusion
deriving DecidableEq, Repr

/-- Canonical human-readable name of a stage (the labels used in the
`process_thought` docstring in `server.py`). -/
def ThoughtStage.canonicalName : ThoughtStage → String
  | .problemDefinition => "Problem Definition"
  | .research => "Research"
  | .analysis => "Analysis"
  | .synthesis => "Synthesis"
  | .conclusion => "Conclusion"

/-- Modelled from the spec: `ThoughtStage.from_string` of the missing
`models.py` — case-insensitive exact match against the five canonical
names; unrecognized labels fail with `InvalidStage`. -/
def ThoughtStage.from_string (label : String) : Except String ThoughtStage :=
  let l := pyLower label
  if l = "problem definition" then .ok .problemDefinition
  else if l = "research" then .ok .research
  else if l = "analysis" then .ok .analysis
  else if l = "synthesis" then .ok .synthesis
  else if l = "conclusion" then .ok .conclusion
  else .error ("InvalidStage: " ++ label)

/-- One thought record (`ThoughtData` in the missing `models.py`), with
the field names used by `server.py`.  Numbers are `Int` since Python
callers may supply any integer; `created_at` is a timestamp in whole
seconds. -/
structure ThoughtData where
  thought : String
  thought_number : Int
  total_thoughts : Int
  next_thought_needed : Bool
  stage : ThoughtStage
  tags : List String
  axioms_used : List String
  assumptions_challenged : List String
  critical_response : Option String := none
  created_at : Nat := 0
deriving DecidableEq, Repr

/-- Modelled from the spec: `validate()` of the missing `models.py` —
checks invariants in fixed order (content non-empty after trimming →
number ≥ 1 → totalExpected ≥ 1); stops at the first violation and
reports the offending field. -/
def ThoughtData.validate (td : ThoughtData) : Except String Unit :=
  if pyStrip td.thought = "" then .error "ValidationError: thought"
  else if td.thought_number < 1 then .error "ValidationError: thought_number"
  else if td.total_thoughts < 1 then .error "ValidationError: total_thoughts"
  else .ok ()

/-- Python's built-in `round` on the fraction `num / den`, restricted to
naturals: round half to even (banker's rounding); `0` when `den = 0`. -/
def pythonRound (num den : Nat) : Nat :=
  if den = 0 then 0
  else
    let q := num / den
    let r := num % den
    if 2 * r < den then q
    else if den < 2 * r then q + 1
    else if q % 2 = 0 then q else q + 1

/-- Outcome of the external OpenAI chat-completion call, seen from the
caller: either the API returned a response object whose message content
may be null (`success`), or the call raised (`failure`: missing network,
HTTP error, timeout, ...). -/
inductive ExtOutcome where
  | success (content : Option String)
  | failure (msg : String)
deriving DecidableEq, Repr

/-- Body of the `try` block of `CriticalThinker.generate_critical_response`
(`critical_thinker.py` lines 32-64): build the client, make the API call
(the oracle `ext`), and return `response.choices[0].message.content.strip()`.
A raised exception is an `Except.error`; a null `content` makes the
`.strip()` attribute access raise. -/
def criticalTryBody (ext : ExtOutcome) : Except String String :=
  match ext with
  | .success (some content) => .ok (pyStrip content)
  | .success none => .error "AttributeError: NoneType object has no attribute strip"
  | .failure msg => .error msg

/-- `CriticalThinker.generate_critical_response` (`critical_thinker.py`
lines 17-67): returns `None` when the api key is falsy, otherwise runs the
try body under `try/except Exception: return None`.  The result type
`Except String (Option String)` records whether an exception escapes the
method. -/
def CriticalThinker.generate_critical_response (apiKey : Option String)
    (ext : ExtOutcome) : Except String (Option String) :=
  if pyTruthy apiKey = false then .ok none
  else
    exceptTryCatch
      (do
        let s ← criticalTryBody ext
        pure (some s))
      (fun _ => .ok none)

/-- The module-level helper `_generate_critical_response` in `server.py`
(lines 35-64): awaits the CriticalThinker call inside a second
`try/except Exception` that logs and returns `None`. -/
def serverGenerateCriticalResponse (apiKey : Option String)
    (ext : ExtOutcome) : Except String (Option String) :=
  exceptTryCatch (CriticalThinker.generate_critical_response apiKey ext)
    (fun _ => .ok none)

/-- Plain `Option`-level value of the critique generation: what
`_generate_critical_response` evaluates to, exceptions being impossible. -/
def genOpt (apiKey : Option String) (ext : ExtOutcome) : Option String :=
  if pyTruthy apiKey then
    match ext with
    | .success (some content) => some (pyStrip content)
    | _ => none
  else none

/-- Modelled from the spec: the relatedness test of the missing
`analysis.py` — a history entry qualifies when it is not the record
itself and shares at least one tag with the record, or shares the
record's stage when the record's tags are empty. -/
def relatedMatch (record t : ThoughtData) : Bool :=
  if t = record then false
  else if record.tags.isEmpty then decide (t.stage = record.stage)
  else record.tags.any (fun tg => t.tags.contains tg)

/-- Collect at most `n` qualifying entries, scanning the (already
reversed, hence most-recent-first) history. -/
def takeMatches (record : ThoughtData) : Nat → List ThoughtData → List ThoughtData
  | _, [] => []
  | 0, _ :: _ => []
  | Nat.succ k, t :: ts =>
    if relatedMatch record t then t :: takeMatches record k ts
    else takeMatches record (Nat.succ k) ts

/-- Result of per-thought analysis (the dict built by the missing
`analysis.py`). -/
structure AnalysisResult where
  progressPercent : Nat
  stageLabel : String
  relatedThoughts : List ThoughtData
  isFinal : Bool
  warnings : List String
deriving Repr

/-- Modelled from the spec: `ThoughtAnalyzer.analyze_thought` of the
missing `analysis.py` — progress arithmetic, stage label, related
thoughts (capped at the 5 most recent matches, most-recent-first),
terminality flag and advisory warnings. -/
def ThoughtAnalyzer.analyze_thought (td : ThoughtData)
    (history : List ThoughtData) : AnalysisResult :=
  { progressPercent :=
      min 100 (pythonRound (100 * td.thought_number.toNat)
        (max td.total_thoughts td.thought_number).toNat)
    stageLabel := td.stage.canonicalName
    relatedThoughts := takeMatches td 5 history.reverse
    isFinal := !td.next_thought_needed && decide (td.stage = ThoughtStage.conclusion)
    warnings :=
      (if td.total_thoughts < td.thought_number
        then ["total-thoughts-revised-upward"] else [])
      ++ (if td.stage = ThoughtStage.conclusion ∧ td.assumptions_challenged = []
        then ["conclusion-without-challenged-assumptions"] else [])
      ++ (if (td.stage = ThoughtStage.analysis ∨ td.stage = ThoughtStage.synthesis)
            ∧ td.axioms_used = []
        then ["reasoning-without-stated-axioms"] else []) }

/-- Fields of the analysis dict returned over the tool boundary.  Related
thoughts are rendered by their `thought_number`. -/
def analysisFields (a : AnalysisResult) : List (String × JVal) :=
  [("stageLabel", JVal.str a.stageLabel),
   ("progressPercent", JVal.int (a.progressPercent : Int)),
   ("isFinal", JVal.bool a.isFinal),
   ("relatedThoughts", JVal.arr (a.relatedThoughts.map (fun t => JVal.int t.thought_number))),
   ("warnings", JVal.arr (a.warnings.map JVal.str))]

/-- The `criticalResponse` entry appended to the analysis dict by
`server.py` lines 144-146: present exactly when the generated critique is
truthy (`if critical_response:`), i.e. a non-`None`, non-empty string. -/
def critTail : Option String → List (String × JVal)
  | some s => if s ≠ "" then [("criticalResponse", JVal.str s)] else []
  | none => []

/-- Raw arguments of the `process_thought` tool (`server.py` lines 67-79),
after the `or []` defaulting of the optional list arguments. -/
structure PTInput where
  thought : String
  thought_number : Int
  total_thoughts : Int
  next_thought_needed : Bool
  stage : String
  tags : List String := []
  axioms_used : List String := []
  assumptions_challenged : List String := []
  generate_critical_response : Bool := true
deriving DecidableEq, Repr

/-- Observable operations of one `process_thought` execution, in program
order: record construction (line 117), critique enrichment (lines
128-132), validation (line 135), append to storage (line 136). -/
inductive Ev where
  | constructEv
  | enrichEv
  | validateEv
  | appendEv
deriving DecidableEq, Repr

/-- The `ThoughtData` object as constructed at `server.py` line 117,
before any critique is attached. -/
def baseRecord (inp : PTInput) (stg : ThoughtStage) (now : Nat) : ThoughtData :=
  { thought := inp.thought
    thought_number := inp.thought_number
    total_thoughts := inp.total_thoughts
    next_thought_needed := inp.next_thought_needed
    stage := stg
    tags := inp.tags
    axioms_used := inp.axioms_used
    assumptions_challenged := inp.assumptions_challenged
    critical_response := none
    created_at := now }

/-- Body of the `try` block of `process_thought` (`server.py` lines
96-152), with the exception flow made explicit and an event trace of the
operations that executed.  `storage` is the history list held by the
`ThoughtStorage` singleton; `apiKey` is `critical_thinker.api_key`; `ext`
is the oracle for the external OpenAI call. -/
def process_thought_core (storage : List ThoughtData) (apiKey : Option String)
    (ext : ExtOutcome) (now : Nat) (inp : PTInput) :
    Except String (JVal × List ThoughtData) × List Ev :=
  match ThoughtStage.from_string inp.stage with
  | .error e => (.error e, [])
  | .ok stg =>
    let td0 := baseRecord inp stg now
    let wantCrit := inp.generate_critical_response && pyTruthy apiKey
    match (if wantCrit then serverGenerateCriticalResponse apiKey ext
           else Except.ok none : Except String (Option String)) with
    | .error e => (.error e, [Ev.constructEv])
    | .ok critical_response =>
      let td := if wantCrit then { td0 with critical_response := critical_response }
                else td0
      let evs := [Ev.constructEv] ++ (if wantCrit then [Ev.enrichEv] else [])
      match td.validate with
      | .error e => (.error e, evs ++ [Ev.validateEv])
      | .ok _ =>
        let storage2 := storage ++ [td]
        let analysis := ThoughtAnalyzer.analyze_thought td storage2
        let fields2 := analysisFields analysis ++ critTail critical_response
        (.ok (JVal.obj fields2, storage2), evs ++ [Ev.validateEv, Ev.appendEv])

/-- The `process_thought` tool (`server.py` lines 67-161): the try body
with its `except` handler, which turns any exception into the structured
failure dict `{"error": str(e), "status": "failed"}` and leaves the
storage untouched. -/
def process_thought (storage : List ThoughtData) (apiKey : Option String)
    (ext : ExtOutcome) (now : Nat) (inp : PTInput) : JVal × List ThoughtData :=
  match (process_thought_core storage apiKey ext now inp).1 with
  | .ok r => r
  | .error e =>
    (JVal.obj [("error", JVal.str e), ("status", JVal.str "failed")], storage)

/-- Event trace of one `process_thought` execution. -/
def process_thought_trace (storage : List ThoughtData) (apiKey : Option String)
    (ext : ExtOutcome) (now : Nat) (inp : PTInput) : List Ev :=
  (process_thought_core storage apiKey ext now inp).2

/-- First binding of a key in an association list (Python dict lookup for
the dicts we build, whose keys are distinct). -/
def getField : List (String × JVal) → String → Option JVal
  | [], _ => none
  | (k, v) :: rest, key => if k = key then some v else getField rest key

/-- Lookup of a key in a JSON value, `none` on non-objects. -/
def JVal.getKey : JVal → String → Option JVal
  | .obj fields, key => getField fields key
  | _, _ => none

/-- Whether a tool result is the structured failure dict (has
`"status": "failed"`). -/
def resultFailed (j : JVal) : Bool :=
  match j.getKey "status" with
  | some (.str s) => s == "failed"
  | _ => false

/-- Modelled from the spec: serialization of one Thought Record by
`export_session` of the missing `storage.py` — a field-named document
holding content, number, totalExpected, continuationExpected, the
stage's canonical name, tags, axioms, assumptionsChallenged, critique
when present, and createdAt (seconds). -/
def serializeRecord (td : ThoughtData) : JVal :=
  JVal.obj
    ([("content", JVal.str td.thought),
      ("number", JVal.int td.thought_number),
      ("totalExpected", JVal.int td.total_thoughts),
      ("continuationExpected", JVal.bool td.next_thought_needed),
      ("stage", JVal.str td.stage.canonicalName),
      ("tags", JVal.arr (td.tags.map JVal.str)),
      ("axioms", JVal.arr (td.axioms_used.map JVal.str)),
      ("assumptionsChallenged", JVal.arr (td.assumptions_challenged.map JVal.str)),
      ("createdAt", JVal.int (td.created_at : Int))]
     ++ (match td.critical_response with
         | some c => [("critique", JVal.str c)]
         | none => []))

/-- Read a string out of a JSON value. -/
def asStr : JVal → Except String String
  | .str s => .ok s
  | _ => .error "ParseError: expected string"

/-- Read an integer out of a JSON value. -/
def asInt : JVal → Except String Int
  | .int i => .ok i
  | _ => .error "ParseError: expected integer"

/-- Read a boolean out of a JSON value. -/
def asBool : JVal → Except String Bool
  | .bool b => .ok b
  | _ => .error "ParseError: expected boolean"

/-- Read a non-negative integer (a timestamp) out of a JSON value. -/
def asNat (v : JVal) : Except String Nat := do
  let i ← asInt v
  if 0 ≤ i then pure i.toNat else throw "ParseError: expected non-negative"

/-- Read each element of a list of JSON values as a string. -/
def asStrListAux : List JVal → Except String (List String)
  | [] => .ok []
  | v :: vs => do
    let s ← asStr v
    let rest ← asStrListAux vs
    pure (s :: rest)

/-- Read a list of strings out of a JSON value. -/
def asStrList : JVal → Except String (List String)
  | .arr xs => asStrListAux xs
  | _ => .error "ParseError: expected array of strings"

/-- A required field: absent fields fail with `ParseError{field}`. -/
def reqField (fields : List (String × JVal)) (key : String) : Except String JVal :=
  match getField fields key with
  | some v => .ok v
  | none => .error ("ParseError: " ++ key)

/-- An optional field with a default. -/
def optField {α : Type} (fields : List (String × JVal)) (key : String)
    (dflt : α) (read : JVal → Except String α) : Except String α :=
  match getField fields key with
  | some v => read v
  | none => .ok dflt

/-- Modelled from the spec: parsing of one Thought Record by
`import_session` of the missing `storage.py` — required fields fail with
`ParseError{field}` when missing, optional fields take their defaults,
unknown fields are ignored. -/
def parseRecord : JVal → Except String ThoughtData
  | .obj fields => do
    let content ← reqField fields "content" >>= asStr
    let number ← reqField fields "number" >>= asInt
    let total ← reqField fields "totalExpected" >>= asInt
    let cont ← reqField fields "continuationExpected" >>= asBool
    let stageLabel ← reqField fields "stage" >>= asStr
    let stg ← ThoughtStage.from_string stageLabel
    let tags ← optField fields "tags" [] asStrList
    let axms ← optField fields "axioms" [] asStrList
    let assumptions ← optField fields "assumptionsChallenged" [] asStrList
    let critique ←
      match getField fields "critique" with
      | some v => do
        let c ← asStr v
        pure (some c)
      | none => pure none
    let createdAt ← reqField fields "createdAt" >>= asNat
    pure { thought := content
           thought_number := number
           total_thoughts := total
           next_thought_needed := cont
           stage := stg
           tags := tags
           axioms_used := axms
           assumptions_challenged := assumptions
           critical_response := critique
           created_at := createdAt }
  | _ => .error "ParseError: expected object"

/-- `export_session` of the missing `storage.py`, modelled from the spec:
serializes the full ordered history. -/
def export_session (history : List ThoughtData) : JVal :=
  JVal.arr (history.map serializeRecord)

/-- Parse each element of a list of JSON values as a record. -/
def parseRecords : List JVal → Except String (List ThoughtData)
  | [] => .ok []
  | v :: vs => do
    let td ← parseRecord v
    let rest ← parseRecords vs
    pure (td :: rest)

/-- `import_session` of the missing `storage.py`, modelled from the spec:
parses the document back into an ordered history, all-or-nothing. -/
def import_session : JVal → Except String (List ThoughtData)
  | .arr xs => parseRecords xs
  | _ => .error "ParseError: expected array"

/-- Sample record 1 of the spec's relatedness example: stage
ProblemDefinition, tags `["x"]`. -/
def sample1 : ThoughtData :=
  { thought := "first", thought_number := 1, total_thoughts := 3,
    next_thought_needed := true, stage := ThoughtStage.problemDefinition,
    tags := ["x"], axioms_used := [], assumptions_challenged := [] }

/-- Sample record 2 of the spec's relatedness example: stage Research,
tags `["x"]`. -/
def sample2 : ThoughtData :=
  { thought := "second", thought_number := 2, total_thoughts := 3,
    next_thought_needed := true, stage := ThoughtStage.research,
    tags := ["x"], axioms_used := [], assumptions_challenged := [] }

/-- Sample record 3 of the spec's relatedness example (re-run variant):
stage Analysis, tags `["x"]`, so it relates to both earlier records. -/
def sample3 : ThoughtData :=
  { thought := "third", thought_number := 3, total_thoughts := 3,
    next_thought_needed := true, stage := ThoughtStage.analysis,
    tags := ["x"], axioms_used := [], assumptions_challenged := [] }

/-- Sample concluding record: stage Conclusion, no continuation, no
challenged assumptions. -/
def sampleConclusion : ThoughtData :=
  { thought := "done", thought_number := 4, total_thoughts := 4,
    next_thought_needed := false, stage := ThoughtStage.conclusion,
    tags := [], axioms_used := [], assumptions_challenged := [] }

/-- The critique subsystem never raises: both layers collapse to
`Except.ok (genOpt apiKey ext)`. -/
theorem serverGenerateCriticalResponse_eq (apiKey : Option String)
    (ext : ExtOutcome) :
    serverGenerateCriticalResponse apiKey ext = .ok (genOpt apiKey ext) := by
  cases h : pyTruthy apiKey <;>
    cases ext with
    | success content =>
      cases content <;>
        simp [serverGenerateCriticalResponse,
          CriticalThinker.generate_critical_response, genOpt, criticalTryBody,
          exceptTryCatch, h]
    | failure msg =>
      simp [serverGenerateCriticalResponse,
        CriticalThinker.generate_critical_response, genOpt, criticalTryBody,
        exceptTryCatch, h]

/-- Parsing a canonical stage name recovers the stage. -/
theorem from_string_canonicalName (s : ThoughtStage) :
    ThoughtStage.from_string s.canonicalName = .ok s := by
  cases s <;> rfl

/-- Validation does not look at the attached critique. -/
theorem validate_set_critical_response (td : ThoughtData) (c : Option String) :
    ThoughtData.validate { td with critical_response := c } =
      ThoughtData.validate td := rfl

/-- Lookup distributes over appended field lists. -/
theorem getField_append (l1 l2 : List (String × JVal)) (key : String) :
    getField (l1 ++ l2) key =
      match getField l1 key with
      | some v => some v
      | none => getField l2 key := by
  induction l1 with
  | nil => simp [getField]
  | cons p rest ih =>
    obtain ⟨k, v⟩ := p
    by_cases h : k = key <;> simp [getField, h, ih]

/-- Scanning for at most `n` matches is filtering then truncating. -/
theorem takeMatches_eq_filter_take (record : ThoughtData) (n : Nat)
    (l : List ThoughtData) :
    takeMatches record n l = (l.filter (relatedMatch record)).take n := by
  induction l generalizing n with
  | nil => cases n <;> rfl
  | cons t ts ih =>
    cases n with
    | zero =>
      by_cases h : relatedMatch record t <;>
        simp [takeMatches, List.filter_cons, h]
    | succ k =>
      by_cases h : relatedMatch record t <;>
        simp [takeMatches, List.filter_cons, h, ih]

/-- Binding a successful `Except` computation runs the continuation. -/
theorem ok_bind {α β : Type} (a : α) (f : α → Except String β) :
    (Except.ok a >>= f : Except String β) = f a := rfl

/-- Mapping over a successful `Except` computation. -/
theorem map_ok {α β : Type} (g : α → β) (a : α) :
    (g <$> Except.ok a : Except String β) = Except.ok (g a) := rfl

/-- Reading back a serialized list of strings. -/
theorem asStrListAux_map_str (l : List String) :
    asStrListAux (l.map JVal.str) = Except.ok l := by
  induction l with
  | nil => rfl
  | cons s t ih => simp [asStrListAux, asStr, ok_bind, ih]

/-- One record round-trips through the persisted format. -/
theorem parseRecord_serializeRecord (td : ThoughtData) :
    parseRecord (serializeRecord td) = Except.ok td := by
  obtain ⟨thought, number, total, cont, stg, tags, axms, assumptions, crit, created⟩ := td
  cases crit <;>
    simp [parseRecord, serializeRecord, reqField, optField, getField,
      asStr, asInt, asBool, asNat, asStrList, from_string_canonicalName,
      asStrListAux_map_str, ok_bind, map_ok]

/-- Lists round-trip through the persisted format. -/
theorem parseRecords_map_serializeRecord (history : List ThoughtData) :
    parseRecords (history.map serializeRecord) = Except.ok history := by
  induction history with
  | nil => rfl
  | cons td rest ih =>
    simp [parseRecords, parseRecord_serializeRecord, ok_bind, ih]

/-- Master reduction of `process_thought_core`: the external call never
raises past the gateway, so the core is equivalent to the pure case
split below (stage parse, critique value, validation of the base record,
then analysis and append). -/
theorem process_thought_core_eq (storage : List ThoughtData)
    (apiKey : Option String) (ext : ExtOutcome) (now : Nat) (inp : PTInput) :
    process_thought_core storage apiKey ext now inp =
      match ThoughtStage.from_string inp.stage with
      | .error e => (.error e, [])
      | .ok stg =>
        let wantCrit := inp.generate_critical_response && pyTruthy apiKey
        let crit := if wantCrit then genOpt apiKey ext else none
        let td := if wantCrit
          then { baseRecord inp stg now with critical_response := crit }
          else baseRecord inp stg now
        let evs := [Ev.constructEv] ++ (if wantCrit then [Ev.enrichEv] else [])
        match (baseRecord inp stg now).validate with
        | .error e => (.error e, evs ++ [Ev.validateEv])
        | .ok _ =>
          let storage2 := storage ++ [td]
          let fields2 :=
            analysisFields (ThoughtAnalyzer.analyze_thought td storage2)
              ++ critTail crit
          (.ok (JVal.obj fields2, storage2), evs ++ [Ev.validateEv, Ev.appendEv]) := by
  cases hs : ThoughtStage.from_string inp.stage with
  | error e => simp [process_thought_core, hs]
  | ok stg =>
    cases hw : inp.generate_critical_response && pyTruthy apiKey with
    | false =>
      simp only [process_thought_core, hs, hw, Bool.false_eq_true, if_false]
    | true =>
      simp only [process_thought_core, hs, hw, if_true,
        serverGenerateCriticalResponse_eq, validate_set_critical_response]

/-- The analysis dict carries no `status` key. -/
theorem getField_analysisFields_status (a : AnalysisResult) :
    getField (analysisFields a) "status" = none := rfl

/-- The analysis dict carries no `criticalResponse` key of its own. -/
theorem getField_analysisFields_criticalResponse (a : AnalysisResult) :
    getField (analysisFields a) "criticalResponse" = none := rfl

/-- The structured failure dict is recognized as failed. -/
theorem resultFailed_error_dict (e : String) :
    resultFailed (JVal.obj [("error", JVal.str e), ("status", JVal.str "failed")])
      = true := rfl

/-- The appended critique entry never carries a `status` key. -/
theorem getField_critTail_status (c : Option String) :
    getField (critTail c) "status" = none := by
  cases c with
  | none => rfl
  | some s => by_cases h : s = "" <;> simp [critTail, h, getField]

/-- What the appended critique entry holds at the `criticalResponse` key. -/
theorem getField_critTail_criticalResponse (c : Option String) :
    getField (critTail c) "criticalResponse" =
      match c with
      | some s => if s ≠ "" then some (JVal.str s) else none
      | none => none := by
  cases c with
  | none => rfl
  | some s => by_cases h : s = "" <;> simp [critTail, h, getField]

/-- A successful analysis dict, with or without the appended critique
field, is not recognized as failed. -/
theorem resultFailed_success_fields (a : AnalysisResult) (crit : Option String) :
    resultFailed (JVal.obj (analysisFields a ++ critTail crit)) = false := by
  simp [resultFailed, JVal.getKey, getField_append,
    getField_analysisFields_status, getField_critTail_status]

/-- Whether a `process_thought` call fails depends only on the stage
label and on validation of the base record — not on the critique oracle. -/
theorem resultFailed_process_thought (storage : List ThoughtData)
    (apiKey : Option String) (ext : ExtOutcome) (now : Nat) (inp : PTInput) :
    resultFailed (process_thought storage apiKey ext now inp).1 =
      match ThoughtStage.from_string inp.stage with
      | .error _ => true
      | .ok stg =>
        match (baseRecord inp stg now).validate with
        | .error _ => true
        | .ok _ => false := by
  unfold process_thought
  rw [process_thought_core_eq]
  cases hs : ThoughtStage.from_string inp.stage with
  | error e => simp [resultFailed_error_dict]
  | ok stg =>
    cases hv : (baseRecord inp stg now).validate with
    | error e => simp [hv, resultFailed_error_dict]
    | ok u => simp [hv, resultFailed_success_fields]

/-- Value of the `criticalResponse` key of a `process_thought` result:
present exactly on the success path with a truthy generated critique. -/
theorem getKey_process_thought_criticalResponse (storage : List ThoughtData)
    (apiKey : Option String) (ext : ExtOutcome) (now : Nat) (inp : PTInput) :
    (process_thought storage apiKey ext now inp).1.getKey "criticalResponse" =
      match ThoughtStage.from_string inp.stage with
      | .error _ => none
      | .ok stg =>
        match (baseRecord inp stg now).validate with
        | .error _ => none
        | .ok _ =>
          match (if inp.generate_critical_response && pyTruthy apiKey
                 then genOpt apiKey ext else none) with
          | some s => if s ≠ "" then some (JVal.str s) else none
          | none => none := by
  unfold process_thought
  rw [process_thought_core_eq]
  cases hs : ThoughtStage.from_string inp.stage with
  | error e => rfl
  | ok stg =>
    cases hv : (baseRecord inp stg now).validate with
    | error e => simp [hv, JVal.getKey, getField]
    | ok u =>
      simp [hv, JVal.getKey, getField_append,
        getField_analysisFields_criticalResponse,
        getField_critTail_criticalResponse]

/-- C1: no exception propagates past the critique gateway boundary — the
server-side critique helper always returns `Except.ok`; a missing api
key, a raised network error and a malformed (null-content) response all
yield an absent critique (`none`); and whether `process_thought`
succeeds or fails is the same for any two outcomes of the external
call. -/
theorem claim_C1_critique_errors_absorbed (apiKey : Option String)
    (ext ext1 ext2 : ExtOutcome) (m : String) (storage : List ThoughtData)
    (now : Nat) (inp : PTInput) :
    (∃ v, serverGenerateCriticalResponse apiKey ext = Except.ok v)
    ∧ serverGenerateCriticalResponse none ext = Except.ok none
    ∧ serverGenerateCriticalResponse apiKey (ExtOutcome.failure m) = Except.ok none
    ∧ serverGenerateCriticalResponse apiKey (ExtOutcome.success none) = Except.ok none
    ∧ resultFailed (process_thought storage apiKey ext1 now inp).1
        = resultFailed (process_thought storage apiKey ext2 now inp).1 := by
  refine ⟨⟨genOpt apiKey ext, serverGenerateCriticalResponse_eq _ _⟩, ?_, ?_, ?_, ?_⟩
  · rw [serverGenerateCriticalResponse_eq]; rfl
  · rw [serverGenerateCriticalResponse_eq]
    cases h : pyTruthy apiKey <;> simp [genOpt, h]
  · rw [serverGenerateCriticalResponse_eq]
    cases h : pyTruthy apiKey <;> simp [genOpt, h]
  · rw [resultFailed_process_thought, resultFailed_process_thought]

/-- C2: a `process_thought` call whose record fails validation appends
nothing — the History Store after the failed call equals the store
before it, and the call reports failure. -/
theorem claim_C2_failed_validation_preserves_store (storage : List ThoughtData)
    (apiKey : Option String) (ext : ExtOutcome) (now : Nat) (inp : PTInput)
    (stg : ThoughtStage) (e : String)
    (hs : ThoughtStage.from_string inp.stage = Except.ok stg)
    (hv : (baseRecord inp stg now).validate = Except.error e) :
    (process_thought storage apiKey ext now inp).2 = storage
    ∧ resultFailed (process_thought storage apiKey ext now inp).1 = true := by
  constructor
  · unfold process_thought
    rw [process_thought_core_eq]
    simp [hs, hv]
  · rw [resultFailed_process_thought]
    simp [hs, hv]

/-- Witness for C2: a record whose content is all whitespace fails
validation, leaves the (empty) store unchanged and reports failure. -/
theorem claim_C2_witness :
    (process_thought [] (some "key") (ExtOutcome.success (some "fine")) 0
      { thought := "   ", thought_number := 1, total_thoughts := 1,
        next_thought_needed := true, stage := "Analysis" }).2 = []
    ∧ resultFailed (process_thought [] (some "key")
        (ExtOutcome.success (some "fine")) 0
        { thought := "   ", thought_number := 1, total_thoughts := 1,
          next_thought_needed := true, stage := "Analysis" }).1 = true :=
  claim_C2_failed_validation_preserves_store [] (some "key")
    (ExtOutcome.success (some "fine")) 0
    { thought := "   ", thought_number := 1, total_thoughts := 1,
      next_thought_needed := true, stage := "Analysis" }
    ThoughtStage.analysis "ValidationError: thought" rfl rfl

/-- C8: `process_thought` always hands a dict back to its caller, and an
internal validation or parse exception becomes the structured failure
dict carrying the error description and `status = "failed"`, with the
store untouched — never a thrown exception across the protocol
boundary. -/
theorem claim_C8_structured_failures (storage : List ThoughtData)
    (apiKey : Option String) (ext : ExtOutcome) (now : Nat) (inp : PTInput) :
    (∃ fields, (process_thought storage apiKey ext now inp).1 = JVal.obj fields)
    ∧ (∀ e, (process_thought_core storage apiKey ext now inp).1 = Except.error e →
        process_thought storage apiKey ext now inp
          = (JVal.obj [("error", JVal.str e), ("status", JVal.str "failed")],
             storage)) := by
  constructor
  · unfold process_thought
    rw [process_thought_core_eq]
    cases hs : ThoughtStage.from_string inp.stage with
    | error e => exact ⟨_, rfl⟩
    | ok stg =>
      cases hv : (baseRecord inp stg now).validate with
      | error e => simp [hv]
      | ok u => simp [hv]
  · intro e he
    unfold process_thought
    rw [he]

/-- Witness for C8: an unparseable stage label produces the structured
failure dict with the `InvalidStage` description. -/
theorem claim_C8_witness :
    (∃ fields, (process_thought [] none (ExtOutcome.failure "down") 0
      { thought := "t", thought_number := 1, total_thoughts := 1,
        next_thought_needed := true, stage := "Pondering" }).1 = JVal.obj fields)
    ∧ process_thought [] none (ExtOutcome.failure "down") 0
        { thought := "t", thought_number := 1, total_thoughts := 1,
          next_thought_needed := true, stage := "Pondering" }
        = (JVal.obj [("error", JVal.str "InvalidStage: Pondering"),
            ("status", JVal.str "failed")], []) :=
  ⟨(claim_C8_structured_failures [] none (ExtOutcome.failure "down") 0
      { thought := "t", thought_number := 1, total_thoughts := 1,
        next_thought_needed := true, stage := "Pondering" }).1,
   (claim_C8_structured_failures [] none (ExtOutcome.failure "down") 0
      { thought := "t", thought_number := 1, total_thoughts := 1,
        next_thought_needed := true, stage := "Pondering" }).2
     "InvalidStage: Pondering" rfl⟩

/-- C3 counterexample: the claim asserts the record is constructed and
validated before being enriched with critique text.  On a concrete valid
call with critique generation enabled, the execution trace of
`process_thought` is construct → enrich → validate → append: enrichment
(at `server.py` line 132) happens strictly before validation (line 135),
so the claimed order is false. -/
theorem claim_C3_counterexample :
    (process_thought_trace [] (some "key") (ExtOutcome.success (some "Be careful")) 0
        { thought := "A thought", thought_number := 1, total_thoughts := 3,
          next_thought_needed := true, stage := "Analysis" }
      = [Ev.constructEv, Ev.enrichEv, Ev.validateEv, Ev.appendEv])
    ∧ List.indexOf Ev.enrichEv
        (process_thought_trace [] (some "key") (ExtOutcome.success (some "Be careful")) 0
          { thought := "A thought", thought_number := 1, total_thoughts := 3,
            next_thought_needed := true, stage := "Analysis" })
      < List.indexOf Ev.validateEv
        (process_thought_trace [] (some "key") (ExtOutcome.success (some "Be careful")) 0
          { thought := "A thought", thought_number := 1, total_thoughts := 3,
            next_thought_needed := true, stage := "Analysis" }) :=
  ⟨rfl, by decide⟩

/-- C3 amended: in every execution of `process_thought` the operations
occur in the order: the Thought Record is constructed, then optionally
enriched with critique text, then validated, then (on successful
validation) appended to the History Store. -/
theorem claim_C3_amended_operation_order (storage : List ThoughtData)
    (apiKey : Option String) (ext : ExtOutcome) (now : Nat) (inp : PTInput) :
    process_thought_trace storage apiKey ext now inp =
      match ThoughtStage.from_string inp.stage with
      | .error _ => []
      | .ok stg =>
        [Ev.constructEv]
        ++ (if inp.generate_critical_response && pyTruthy apiKey
            then [Ev.enrichEv] else [])
        ++ [Ev.validateEv]
        ++ (match (baseRecord inp stg now).validate with
            | .ok _ => [Ev.appendEv]
            | .error _ => []) := by
  unfold process_thought_trace
  rw [process_thought_core_eq]
  cases hs : ThoughtStage.from_string inp.stage with
  | error e => rfl
  | ok stg =>
    cases hv : (baseRecord inp stg now).validate with
    | error e => simp [hv]
    | ok u => simp [hv]

/-- C4: for a record with positive `number` and positive `totalExpected`,
the analyzer's progress is exactly
`min 100 (round (100 * number / max totalExpected number))` and always
lies in `[0, 100]`, also when `number` exceeds `totalExpected`. -/
theorem claim_C4_progress_percent_bounds (td : ThoughtData)
    (history : List ThoughtData) (_h1 : 1 ≤ td.thought_number)
    (_h2 : 1 ≤ td.total_thoughts) :
    (ThoughtAnalyzer.analyze_thought td history).progressPercent
      = min 100 (pythonRound (100 * td.thought_number.toNat)
          (max td.total_thoughts td.thought_number).toNat)
    ∧ (ThoughtAnalyzer.analyze_thought td history).progressPercent ≤ 100 :=
  ⟨rfl, Nat.min_le_left _ _⟩

/-- Witness for C4: a record at position 7 of an estimated 5 (number
exceeding the total) still reports progress within the bound — here
exactly 100. -/
theorem claim_C4_witness :
    ((1:Int) ≤ 7 ∧ (1:Int) ≤ 5)
    ∧ ((ThoughtAnalyzer.analyze_thought
          { thought := "t", thought_number := 7, total_thoughts := 5,
            next_thought_needed := true, stage := ThoughtStage.analysis,
            tags := [], axioms_used := [], assumptions_challenged := [] }
          []).progressPercent
        = min 100 (pythonRound (100 * (7:Int).toNat) ((max 5 7 : Int)).toNat)
      ∧ (ThoughtAnalyzer.analyze_thought
          { thought := "t", thought_number := 7, total_thoughts := 5,
            next_thought_needed := true, stage := ThoughtStage.analysis,
            tags := [], axioms_used := [], assumptions_challenged := [] }
          []).progressPercent ≤ 100) :=
  ⟨⟨by decide, by decide⟩,
   claim_C4_progress_percent_bounds
     { thought := "t", thought_number := 7, total_thoughts := 5,
       next_thought_needed := true, stage := ThoughtStage.analysis,
       tags := [], axioms_used := [], assumptions_challenged := [] }
     [] (by decide) (by decide)⟩

/-- C5: exporting any history (empty or not) and importing the result
reproduces the history exactly — same field values in the same order,
with the whole-second timestamps preserved (round-trip law). -/
theorem claim_C5_export_import_round_trip (history : List ThoughtData) :
    import_session (export_session history) = Except.ok history := by
  simp [import_session, export_session, parseRecords_map_serializeRecord]

/-- C6: the analyzer's related thoughts are exactly the 5 most recent
prior history entries (excluding the record itself) sharing a tag with
the record — or sharing its stage when the record has no tags — listed
most-recent-first. -/
theorem claim_C6_related_thoughts_characterization (record : ThoughtData)
    (history : List ThoughtData) :
    (ThoughtAnalyzer.analyze_thought record history).relatedThoughts
      = ((history.filter (relatedMatch record)).reverse).take 5
    ∧ (ThoughtAnalyzer.analyze_thought record history).relatedThoughts.length ≤ 5
    ∧ ∀ t ∈ (ThoughtAnalyzer.analyze_thought record history).relatedThoughts,
        t ∈ history ∧ t ≠ record
        ∧ (record.tags = [] → t.stage = record.stage)
        ∧ (record.tags ≠ [] → ∃ tg ∈ record.tags, tg ∈ t.tags) := by
  have he : (ThoughtAnalyzer.analyze_thought record history).relatedThoughts
      = ((history.filter (relatedMatch record)).reverse).take 5 := by
    show takeMatches record 5 history.reverse = _
    rw [takeMatches_eq_filter_take, List.filter_reverse]
  refine ⟨he, ?_, ?_⟩
  · rw [he]
    exact List.length_take_le _ _
  · intro t ht
    rw [he] at ht
    have ht2 := List.mem_of_mem_take ht
    rw [List.mem_reverse] at ht2
    obtain ⟨hmem, hmatch⟩ := List.mem_filter.mp ht2
    by_cases hteq : t = record
    · simp [relatedMatch, hteq] at hmatch
    refine ⟨hmem, hteq, ?_, ?_⟩
    · intro htags
      simp [relatedMatch, hteq, htags] at hmatch
      exact hmatch
    · intro htags
      simp [relatedMatch, hteq, List.isEmpty_iff, htags, List.any_eq_true] at hmatch
      obtain ⟨tg, htg, hin⟩ := hmatch
      exact ⟨tg, htg, hin⟩

/-- Witness for C6: with thoughts #1 (ProblemDefinition, tag x),
#2 (Research, tag x) and #3 (Analysis, tag x), analyzing #3 yields
exactly #2 then #1 — most recent first — and #2 enjoys the membership,
distinctness and tag-sharing properties. -/
theorem claim_C6_witness :
    (ThoughtAnalyzer.analyze_thought sample3 [sample1, sample2, sample3]).relatedThoughts
      = [sample2, sample1]
    ∧ (sample2 ∈ [sample1, sample2, sample3] ∧ sample2 ≠ sample3
       ∧ (sample3.tags = [] → sample2.stage = sample3.stage)
       ∧ (sample3.tags ≠ [] → ∃ tg ∈ sample3.tags, tg ∈ sample2.tags)) :=
  ⟨by decide,
   (claim_C6_related_thoughts_characterization sample3
     [sample1, sample2, sample3]).2.2 sample2 (by decide)⟩

/-- C7: the analyzer flags a record as final exactly when no
continuation is expected and the stage is Conclusion; when such a record
additionally challenges no assumptions, the warnings include
"conclusion-without-challenged-assumptions". -/
theorem claim_C7_is_final_and_conclusion_warning (td : ThoughtData)
    (history : List ThoughtData) :
    ((ThoughtAnalyzer.analyze_thought td history).isFinal = true
      ↔ td.next_thought_needed = false ∧ td.stage = ThoughtStage.conclusion)
    ∧ (td.next_thought_needed = false → td.stage = ThoughtStage.conclusion →
        td.assumptions_challenged = [] →
        (ThoughtAnalyzer.analyze_thought td history).isFinal = true
        ∧ "conclusion-without-challenged-assumptions"
            ∈ (ThoughtAnalyzer.analyze_thought td history).warnings) := by
  constructor
  · simp [ThoughtAnalyzer.analyze_thought]
  · intro h1 h2 h3
    simp [ThoughtAnalyzer.analyze_thought, h1, h2, h3]

/-- Witness for C7: a Conclusion record with no continuation and no
challenged assumptions is final and draws the warning. -/
theorem claim_C7_witness :
    (ThoughtAnalyzer.analyze_thought sampleConclusion []).isFinal = true
    ∧ "conclusion-without-challenged-assumptions"
        ∈ (ThoughtAnalyzer.analyze_thought sampleConclusion []).warnings :=
  (claim_C7_is_final_and_conclusion_warning sampleConclusion []).2 rfl rfl rfl

/-- C10: the `criticalResponse` key appears in the returned analysis only
when the generated critique is a truthy (non-`None`, non-empty) string,
and a critique that is the empty string is omitted — the attachment
check at `server.py` line 145 uses truthiness. -/
theorem claim_C10_critical_response_truthiness (storage : List ThoughtData)
    (apiKey : Option String) (ext : ExtOutcome) (now : Nat) (inp : PTInput) :
    (∀ v, (process_thought storage apiKey ext now inp).1.getKey "criticalResponse"
        = some v →
      ∃ s, v = JVal.str s ∧ s ≠ ""
        ∧ (if inp.generate_critical_response && pyTruthy apiKey
           then genOpt apiKey ext else none) = some s)
    ∧ ((if inp.generate_critical_response && pyTruthy apiKey
        then genOpt apiKey ext else none) = some "" →
       (process_thought storage apiKey ext now inp).1.getKey "criticalResponse"
         = none) := by
  have hk := getKey_process_thought_criticalResponse storage apiKey ext now inp
  constructor
  · intro v hv'
    rw [hk] at hv'
    cases hstage : ThoughtStage.from_string inp.stage with
    | error e =>
      simp [hstage] at hv'
    | ok stg =>
      simp only [hstage] at hv'
      cases hval : (baseRecord inp stg now).validate with
      | error e =>
        simp [hval] at hv'
      | ok u =>
        simp only [hval] at hv'
        by_cases hb : inp.generate_critical_response && pyTruthy apiKey
        · simp only [hb] at hv'
          simp at hv'
          cases hg : genOpt apiKey ext with
          | none => simp [hg] at hv'
          | some s =>
            simp only [hg] at hv'
            by_cases hnil : s = ""
            · simp [hnil] at hv'
            · simp [hnil] at hv'
              refine ⟨s, hv'.symm, hnil, ?_⟩
              simp [hb, hg]
        · simp [hb] at hv'
  · intro h
    rw [hk, h]
    cases hstage : ThoughtStage.from_string inp.stage with
    | error e => rfl
    | ok stg =>
      cases hval : (baseRecord inp stg now).validate with
      | error e => simp [hval]
      | ok u => simp [hval]

/-- Witness for C10: with a truthy key and a successful external call the
key carries the critique; with an empty-string critique the key is
absent. -/
theorem claim_C10_witness :
    (∃ s, JVal.str "Mind the bias" = JVal.str s ∧ s ≠ ""
      ∧ (if true && pyTruthy (some "key")
         then genOpt (some "key") (ExtOutcome.success (some "Mind the bias"))
         else none) = some s)
    ∧ (process_thought [] (some "key") (ExtOutcome.success (some "   ")) 0
        { thought := "A thought", thought_number := 1, total_thoughts := 3,
          next_thought_needed := true, stage := "Analysis" }).1.getKey
        "criticalResponse" = none :=
  ⟨(claim_C10_critical_response_truthiness [] (some "key")
      (ExtOutcome.success (some "Mind the bias")) 0
      { thought := "A thought", thought_number := 1, total_thoughts := 3,
        next_thought_needed := true, stage := "Analysis" }).1
      (JVal.str "Mind the bias") rfl,
   (claim_C10_critical_response_truthiness [] (some "key")
      (ExtOutcome.success (some "   ")) 0
      { thought := "A thought", thought_number := 1, total_thoughts := 3,
        next_thought_needed := true, stage := "Analysis" }).2 rfl⟩

end SeqThink
